import Mathlib

/-!
Shallow embedding of the mcp-server-template repository's core:
the path containment validator (src/vault_manager.py, VaultManager.validate_path)
and the git synchronization engine (src/git_manager.py, GitManager).

Python strings are modelled as Lean `String`; every Python string operation the
source uses (startswith, the `in` substring test, split, strip, replace, slicing)
is defined here structurally over `String.data` so that all definitions are
executable and kernel-reducible.
-/

namespace MCPVault

/-! ## Python string primitives -/

/-- Python `s.startswith(pre)`. -/
def strStartsWith (s pre : String) : Bool := pre.data.isPrefixOf s.data

/-- Substring occurrence over character lists: does `sub` occur contiguously in `l`? -/
def containsSub (sub : List Char) : List Char → Bool
  | [] => sub.isEmpty
  | c :: cs => sub.isPrefixOf (c :: cs) || containsSub sub cs

/-- Python `sub in s` (substring containment). -/
def pyIn (sub s : String) : Bool := containsSub sub.data s.data

/-- Python `s.strip()` restricted to its use in the source: the source only ever
tests `s.strip()` against emptiness/truthiness, so whitespace is stripped from
both ends. -/
def pyStrip (s : String) : String :=
  String.mk (((s.data.dropWhile Char.isWhitespace).reverse.dropWhile Char.isWhitespace).reverse)

/-- Python `s.replace(old, new)` on character lists: leftmost, non-overlapping,
replacing every occurrence.  The fuel argument (instantiated with the length of
the list) only serves termination; one character is consumed per step. -/
def replaceAux (old new : List Char) : Nat → List Char → List Char
  | _, [] => []
  | 0, l => l
  | Nat.succ k, c :: cs =>
    if old.isPrefixOf (c :: cs) && !old.isEmpty then
      new ++ replaceAux old new k ((c :: cs).drop old.length)
    else
      c :: replaceAux old new k cs

/-- Python `s.replace(old, new)`. -/
def pyReplace (s old new : String) : String :=
  String.mk (replaceAux old.data new.data s.data.length s.data)

/-- Python `s.split(sep)` for a single-character separator, over character lists:
always returns at least one (possibly empty) piece; empty pieces are kept. -/
def splitOnChar (sep : Char) : List Char → List (List Char)
  | [] => [[]]
  | c :: cs =>
    let r := splitOnChar sep cs
    if c = sep then [] :: r
    else
      match r with
      | [] => [[c]]
      | h :: t => (c :: h) :: t

/-- Python `s.split(sep)` for one-character `sep`, as strings. -/
def pySplit (s : String) (sep : Char) : List String :=
  (splitOnChar sep s.data).map String.mk

/-- Join a list of strings with a separator (Python `sep.join(parts)`). -/
def joinWith (sep : String) : List String → String
  | [] => ""
  | [x] => x
  | x :: y :: xs => x ++ sep ++ joinWith sep (y :: xs)

/-! ## Path model (os.path / pathlib fragments used by the source)

Paths are POSIX path strings.  `normpath` is `os.path.normpath`, `pathJoin` is
pathlib's `/` on a canonical absolute left operand, `pathParts` is
`PurePosixPath.parts`, and `relativeToOk` is the success condition of
`Path.relative_to`.  Symlink resolution (`Path.resolve`) depends on the
filesystem at call time, so the validator below is parametric in a
`resolve : String → String` function standing for it. -/

/-- `os.path.normpath` (POSIX): collapse separators and `.` segments, resolve
`..` segments lexically, keep a leading run of `..` for relative paths, drop it
for absolute ones. -/
def normpath (path : String) : String :=
  if path = "" then "."
  else
    let initialSlashes : Nat :=
      if strStartsWith path "/" then
        if strStartsWith path "//" && !strStartsWith path "///" then 2 else 1
      else 0
    let comps := pySplit path '/'
    let newComps := comps.foldl
      (fun acc comp =>
        if comp = "" || comp = "." then acc
        else if comp != ".." || (initialSlashes = 0 && acc.isEmpty)
            || (acc.getLast? = some "..") then acc ++ [comp]
        else if !acc.isEmpty then acc.dropLast
        else acc) []
    let joined :=
      (if initialSlashes = 2 then "//" else if initialSlashes = 1 then "/" else "")
        ++ joinWith "/" newComps
    if joined = "" then "." else joined

/-- pathlib `root / s` where `root` is a canonical absolute path and `s` is the
output of `normpath` (so `s` has no `.` components except being exactly `"."`):
an absolute right operand replaces the left one. -/
def pathJoin (root s : String) : String :=
  if strStartsWith s "/" then s
  else if s = "." then root
  else root ++ "/" ++ s

/-- `PurePosixPath(s).parts`: the anchor `"/"` (when absolute) followed by the
nonempty, non-`.` components. -/
def pathParts (s : String) : List String :=
  let rest := (pySplit s '/').filter (fun c => !(c = "" || c = "."))
  if strStartsWith s "/" then "/" :: rest else rest

/-- The success condition of `p.relative_to(root)` for the paths the validator
compares (both canonical absolute): `root`'s parts are a leading run of `p`'s. -/
def relativeToOk (p root : String) : Bool :=
  (pathParts root).isPrefixOf (pathParts p)

/-- `PathSecurityError`, with the two raise sites distinguished and the
offending input carried, as in the source's messages. -/
inductive PathErr where
  | traversal (input : String)
  | escapes (input : String)
deriving DecidableEq, Repr

/-- `VaultManager.validate_path` (src/vault_manager.py lines 21-34).
`resolve` stands for `Path.resolve()` on the filesystem at call time;
`vault_path` is the already-resolved vault root fixed at construction. -/
def validate_path (resolve : String → String) (vault_path relative_path : String) :
    Except PathErr String :=
  let normalized := normpath relative_path
  if strStartsWith normalized ".." || pyIn "/.." normalized || pyIn "\\.." normalized then
    Except.error (PathErr.traversal relative_path)
  else
    let full_path := resolve (pathJoin vault_path normalized)
    if relativeToOk full_path vault_path then Except.ok full_path
    else Except.error (PathErr.escapes relative_path)

/-- Spec-level predicate: some component of the normalized path either begins
with the two characters `..` or contains a backslash immediately followed by
`..`.  This is what the source's string pre-check actually rejects (it is wider
than "contains a parent-directory segment": a plain filename beginning with
`..` also trips it). -/
def componentFlag (s : String) : Bool :=
  (pySplit s '/').any (fun c => strStartsWith c ".." || pyIn "\\.." c)

/-! ## The git synchronization engine (src/git_manager.py)

`subprocess.run` of git is modelled by an environment: `Env.git i cmd` is the
completed process of the `i`-th git invocation of the run (the engine's command
sequence is deterministic given the environment, so indexing by invocation
count is faithful), and `Env.pathExists` is the filesystem existence test,
fixed for the duration of one engine operation.  `Env.now` models
`datetime.now()`.  Each operation returns its result value, the new engine
state, the list of git argument vectors it invoked in order, and the log lines
it emitted. -/

/-- `subprocess.CompletedProcess` as captured by `_run_git`. -/
structure ProcResult where
  returncode : Int
  stdout : String
  stderr : String
deriving DecidableEq, Repr

/-- The external world: filesystem existence, the git subprocess oracle
(indexed by invocation count), and the clock. -/
structure Env where
  pathExists : String → Bool
  git : Nat → List String → ProcResult
  now : Nat

/-- `GitManager`'s instance state (src/git_manager.py lines 11-24): the
remote binding (token-bearing URL, sanitized URL, local path, branch) and the
mutable last-successful-sync timestamp.  These are all the attributes
`__init__` creates. -/
structure GitManager where
  repo_url : String
  repo_url_safe : String
  local_path : String
  branch : String
  last_sync : Option Nat
deriving DecidableEq, Repr

/-- `GitManager._inject_token` (lines 26-29). -/
def injectToken (url token : String) : String :=
  if strStartsWith url "https://" then pyReplace url "https://" ("https://" ++ token ++ "@")
  else url

/-- `GitManager.__init__` (lines 11-24): the constructed state and the single
log line it emits (which interpolates the sanitized URL).  Python's
`if token` is a truthiness test, so an empty-string token is not injected. -/
def gitManagerInit (repo_url local_path : String) (branch : String := "main")
    (token : Option String := none) : GitManager × List String :=
  let theUrl := match token with
    | some tok => if tok = "" then repo_url else injectToken repo_url tok
    | none => repo_url
  (⟨theUrl, repo_url, local_path, branch, none⟩,
   ["GitManager initialized: repo=" ++ repo_url ++ ", path=" ++ local_path
      ++ ", branch=" ++ branch])

/-- Running trace of one engine operation: invocation counter, git argument
vectors issued so far, log lines emitted so far. -/
structure Trace where
  n : Nat
  cmds : List (List String)
  log : List String
deriving DecidableEq, Repr

/-- The empty trace starting at invocation index `n`. -/
def Trace.start (n : Nat) : Trace := ⟨n, [], []⟩

/-- Append log lines to a trace. -/
def addLog (t : Trace) (lines : List String) : Trace := ⟨t.n, t.cmds, t.log ++ lines⟩

/-- Python `s[:500]`. -/
def truncate500 (s : String) : String := String.mk (s.data.take 500)

/-- `GitManager._run_git` (lines 31-55): build `["git"] + args`, run it in
`cwd or self.local_path`, log the command line (note: the full joined argument
vector, token-bearing URL included when present) and the outcome. -/
def runGit (env : Env) (gm : GitManager) (args : List String) (cwd : Option String)
    (t : Trace) : ProcResult × Trace :=
  let cmd := "git" :: args
  let work_dir := cwd.getD gm.local_path
  let result := env.git t.n cmd
  let lg :=
    ["Running git command: " ++ joinWith " " cmd ++ " in " ++ work_dir] ++
    (if result.returncode ≠ 0 then
      ["Git command failed: " ++ joinWith " " cmd,
       "  returncode: " ++ toString result.returncode,
       "  stdout: " ++ result.stdout,
       "  stderr: " ++ result.stderr]
     else
      ["Git command succeeded: " ++ joinWith " " cmd] ++
      (if result.stdout ≠ "" then ["  stdout: " ++ truncate500 result.stdout] else []))
  (result, ⟨t.n + 1, t.cmds ++ [cmd], t.log ++ lg⟩)

/-- `pathlib.Path(p).parent` for the paths the source passes (no trailing
slash). -/
def parentDir (p : String) : String :=
  let l := (p.data.reverse.dropWhile (fun c => c ≠ '/')).drop 1
  if l.isEmpty then (if strStartsWith p "/" then "/" else ".") else String.mk l.reverse

/-- The result dictionaries returned by `clone`/`pull`/`push`, with exactly the
keys the source ever puts in them; a key absent from a given return is `none`. -/
structure Outcome where
  success : Bool
  action : String
  error : Option String := none
  path : Option String := none
  message : Option String := none
  changes_pushed : Option Bool := none
  step : Option String := none
  commit_output : Option String := none
deriving DecidableEq, Repr

/-- The result dictionary of `sync`, which additionally embeds the
sub-operations' result dictionaries. -/
structure SyncOutcome where
  success : Bool
  action : String
  error : Option String := none
  step : Option String := none
  changes_pushed : Option Bool := none
  pull_result : Option Outcome := none
  push_result : Option Outcome := none
deriving DecidableEq, Repr

/-- The observable run of one engine operation: returned value, engine state
after the call, git argument vectors invoked in order, log lines emitted. -/
structure OpRun (α : Type) where
  ret : α
  gm : GitManager
  cmds : List (List String)
  log : List String
deriving DecidableEq, Repr

/-- Python `f"{x}"` on an optional string (`dict.get` of a missing key prints
`None`). -/
def pyShowOpt : Option String → String
  | none => "None"
  | some s => s

/-- `GitManager.clone` (lines 57-91) and `GitManager.pull` (lines 93-129) in
one fueled definition: `true` is `clone()`, `false` is `pull()`.  Each can
delegate to the other exactly once (clone to pull when the repo marker exists,
pull to clone when the local path does not exist); the two delegation guards
are mutually exclusive for a fixed environment, so fuel 2 never runs out.  The
fuel-0 row is unreachable at fuel 2 and only serves termination. -/
def clonePull : Nat → Bool → Env → GitManager → Nat → OpRun Outcome
  | 0, isClone, _, gm, _ =>
    ⟨{ success := false, action := if isClone then "clone" else "pull",
       error := some "fuel exhausted" }, gm, [], []⟩
  | Nat.succ fuel, true, env, gm, n =>
    let t := addLog (Trace.start n)
      ["clone() called - checking if repo exists at " ++ gm.local_path]
    if env.pathExists gm.local_path && env.pathExists (gm.local_path ++ "/.git") then
      let t := addLog t ["Repo already exists at " ++ gm.local_path ++ ", pulling latest"]
      let r := clonePull fuel false env gm n
      ⟨r.ret, r.gm, r.cmds, t.log ++ r.log⟩
    else
      let t := addLog t ["Cloning repo to " ++ gm.local_path]
      let (result, t) := runGit env gm
        ["clone", "--branch", gm.branch, "--single-branch", "--depth", "1",
         gm.repo_url, gm.local_path] (some (parentDir gm.local_path)) t
      if result.returncode ≠ 0 then
        ⟨{ success := false, action := "clone", error := some result.stderr },
         gm, t.cmds, t.log⟩
      else
        let gm2 : GitManager :=
          ⟨gm.repo_url, gm.repo_url_safe, gm.local_path, gm.branch, some env.now⟩
        let t := addLog t ["Successfully cloned repo to " ++ gm.local_path]
        ⟨{ success := true, action := "clone", path := some gm.local_path },
         gm2, t.cmds, t.log⟩
  | Nat.succ fuel, false, env, gm, n =>
    let t := addLog (Trace.start n) ["pull() called"]
    if !env.pathExists gm.local_path then
      let t := addLog t ["Local path doesn't exist, falling back to clone"]
      let r := clonePull fuel true env gm n
      ⟨r.ret, r.gm, r.cmds, t.log ++ r.log⟩
    else
      let t := addLog t ["Stashing any local changes..."]
      let (stash_result, t) := runGit env gm
        ["stash", "push", "-m", "auto-stash before pull"] none t
      let had_stash := !pyIn "No local changes to save" stash_result.stdout
      let t := addLog t ["Pulling from origin/" ++ gm.branch ++ " with rebase..."]
      let (result, t) := runGit env gm ["pull", "--rebase", "origin", gm.branch] none t
      if result.returncode ≠ 0 then
        let t :=
          if had_stash then
            (runGit env gm ["stash", "pop"] none
              (addLog t ["Pull failed, restoring stash..."])).2
          else t
        ⟨{ success := false, action := "pull", error := some result.stderr },
         gm, t.cmds, t.log⟩
      else
        let t :=
          if had_stash then
            (runGit env gm ["stash", "pop"] none
              (addLog t ["Restoring stashed changes..."])).2
          else t
        let gm2 : GitManager :=
          ⟨gm.repo_url, gm.repo_url_safe, gm.local_path, gm.branch, some env.now⟩
        let t := addLog t ["Pull completed successfully"]
        ⟨{ success := true, action := "pull" }, gm2, t.cmds, t.log⟩

/-- `GitManager.clone()` as the callers see it. -/
def cloneOp (env : Env) (gm : GitManager) (n : Nat) : OpRun Outcome :=
  clonePull 2 true env gm n

/-- `GitManager.pull()` as the callers see it. -/
def pullOp (env : Env) (gm : GitManager) (n : Nat) : OpRun Outcome :=
  clonePull 2 false env gm n

/-- `GitManager.push` (lines 131-229): the seven-step protocol. -/
def pushOp (env : Env) (gm : GitManager) (message : String) (n : Nat) : OpRun Outcome :=
  let t := addLog (Trace.start n) ["push() called with message: " ++ message]
  let t := addLog t ["Step 1: Checking git status before operations..."]
  let (status_result, t) := runGit env gm ["status", "--porcelain"] none t
  let t := addLog t ["Git status (porcelain): '" ++ status_result.stdout ++ "'"]
  if pyStrip status_result.stdout = "" then
    let t := addLog t ["Working directory is clean - no changes to push"]
    ⟨{ success := true, action := "no_changes",
       message := some "Working directory clean, nothing to push",
       changes_pushed := some false }, gm, t.cmds, t.log⟩
  else
  let t := addLog t ["Step 2: Staging all changes with 'git add -A'..."]
  let (add_result, t) := runGit env gm ["add", "-A"] none t
  if add_result.returncode ≠ 0 then
    ⟨{ success := false, action := "push",
       error := some ("git add failed: " ++ add_result.stderr),
       step := some "add" }, gm, t.cmds, t.log⟩
  else
  let t := addLog t ["Step 3: Checking staged changes..."]
  let (diff_result, t) := runGit env gm ["diff", "--cached", "--stat"] none t
  let t := addLog t ["Staged changes:\n" ++ diff_result.stdout]
  if pyStrip diff_result.stdout = "" then
    let t := addLog t ["Nothing staged after 'git add -A' - files might be ignored"]
    let (ignored_result, t) := runGit env gm ["status", "--ignored", "--porcelain"] none t
    let t := addLog t ["Ignored files check: " ++ ignored_result.stdout]
    ⟨{ success := true, action := "no_changes",
       message := some "Nothing staged - files may be in .gitignore",
       changes_pushed := some false }, gm, t.cmds, t.log⟩
  else
  let t := addLog t ["Step 4: Committing with message: " ++ message]
  let (commit_result, t) := runGit env gm ["commit", "-m", message] none t
  if commit_result.returncode ≠ 0 then
    ⟨{ success := false, action := "push",
       error := some ("git commit failed: " ++ commit_result.stderr),
       step := some "commit" }, gm, t.cmds, t.log⟩
  else
  let t := addLog t ["Commit successful: " ++ commit_result.stdout]
  let t := addLog t ["Step 5: Checking local vs remote status..."]
  let (_, t) := runGit env gm ["fetch", "origin", gm.branch] none t
  let (log_result, t) := runGit env gm
    ["log", "origin/" ++ gm.branch ++ "..HEAD", "--oneline"] none t
  let t := addLog t ["Commits to push: " ++ log_result.stdout]
  let t := addLog t ["Step 6: Pushing to origin/" ++ gm.branch ++ "..."]
  let (push_result, t) := runGit env gm ["push", "origin", gm.branch] none t
  if push_result.returncode ≠ 0 then
    ⟨{ success := false, action := "push",
       error := some ("git push failed: " ++ push_result.stderr),
       step := some "push" }, gm, t.cmds, t.log⟩
  else
  let t := addLog t ["Step 7: Verifying push succeeded..."]
  let (_, t) := runGit env gm ["fetch", "origin", gm.branch] none t
  let (verify_result, t) := runGit env gm
    ["log", "origin/" ++ gm.branch ++ "..HEAD", "--oneline"] none t
  if pyStrip verify_result.stdout ≠ "" then
    let t := addLog t
      ["Push may have failed - still have unpushed commits: " ++ verify_result.stdout]
    ⟨{ success := false, action := "push",
       error := some "Push command succeeded but commits still not on remote",
       step := some "verify" }, gm, t.cmds, t.log⟩
  else
  let gm2 : GitManager :=
    ⟨gm.repo_url, gm.repo_url_safe, gm.local_path, gm.branch, some env.now⟩
  let t := addLog t ["Push completed and verified successfully!"]
  ⟨{ success := true, action := "push",
     message := some "Changes pushed successfully",
     changes_pushed := some true,
     commit_output := some commit_result.stdout }, gm2, t.cmds, t.log⟩

/-- `GitManager.sync` (lines 231-266): pull, then push; short-circuit on pull
failure.  The two log lines that interpolate a whole result dictionary are
abbreviated to their fixed prefix (no claim depends on a rendering of Python's
dict repr). -/
def syncOp (env : Env) (gm : GitManager) (message : String) (n : Nat) : OpRun SyncOutcome :=
  let lg0 := ["sync() called with message: " ++ message]
  let pr := pullOp env gm n
  if !pr.ret.success then
    ⟨{ success := false, action := "sync",
       error := some ("Pull failed: " ++ pyShowOpt pr.ret.error),
       step := some "pull", pull_result := some pr.ret },
     pr.gm, pr.cmds, lg0 ++ pr.log ++ ["Sync failed at pull step"]⟩
  else
    let ps := pushOp env pr.gm message (n + pr.cmds.length)
    if !ps.ret.success then
      ⟨{ success := false, action := "sync",
         error := some ("Push failed: " ++ pyShowOpt ps.ret.error),
         step := some "push", push_result := some ps.ret },
       ps.gm, pr.cmds ++ ps.cmds, lg0 ++ pr.log ++ ps.log ++ ["Sync failed at push step"]⟩
    else
      ⟨{ success := true, action := "sync",
         changes_pushed := some (ps.ret.changes_pushed.getD false),
         pull_result := some pr.ret, push_result := some ps.ret },
       ps.gm, pr.cmds ++ ps.cmds, lg0 ++ pr.log ++ ps.log ++ ["Sync completed successfully"]⟩

/-- The dictionary built by `get_status` (lines 268-308), with exactly the keys
the source can put in it. -/
structure StatusDict where
  repo_url : String
  local_path : String
  branch : String
  last_sync : Option Nat
  path_exists : Bool
  error : Option String := none
  working_directory_changes : Option String := none
  current_branch : Option String := none
  last_commit : Option String := none
  remotes : Option String := none
  commits_ahead : Option String := none
  commits_behind : Option String := none
deriving DecidableEq, Repr

/-- `GitManager.get_status` (lines 268-308): the read-only debug snapshot. -/
def getStatus (env : Env) (gm : GitManager) (n : Nat) : OpRun StatusDict :=
  let t := addLog (Trace.start n) ["get_status() called"]
  let base : StatusDict :=
    { repo_url := gm.repo_url_safe, local_path := gm.local_path, branch := gm.branch,
      last_sync := gm.last_sync, path_exists := env.pathExists gm.local_path }
  if !env.pathExists gm.local_path then
    ⟨{ base with error := some "Local path does not exist" }, gm, t.cmds, t.log⟩
  else if !env.pathExists (gm.local_path ++ "/.git") then
    ⟨{ base with error := some "Not a git repository" }, gm, t.cmds, t.log⟩
  else
    let (status_result, t) := runGit env gm ["status", "--porcelain"] none t
    let wdc := if status_result.stdout ≠ "" then pyStrip status_result.stdout else "(clean)"
    let (branch_result, t) := runGit env gm ["branch", "--show-current"] none t
    let (log_result, t) := runGit env gm ["log", "-1", "--oneline"] none t
    let (remote_result, t) := runGit env gm ["remote", "-v"] none t
    let (_, t) := runGit env gm ["fetch", "origin", gm.branch] none t
    let (ahead_result, t) := runGit env gm
      ["rev-list", "origin/" ++ gm.branch ++ "..HEAD", "--count"] none t
    let (behind_result, t) := runGit env gm
      ["rev-list", "HEAD..origin/" ++ gm.branch, "--count"] none t
    ⟨{ base with
        working_directory_changes := some wdc,
        current_branch := some (pyStrip branch_result.stdout),
        last_commit := some (pyStrip log_result.stdout),
        remotes := some (pyStrip remote_result.stdout),
        commits_ahead := some (pyStrip ahead_result.stdout),
        commits_behind := some (pyStrip behind_result.stdout) },
     gm, t.cmds, t.log⟩

/-- Spec-level predicate: the normalized path has a component that IS a
parent-directory segment. -/
def hasParentSegment (s : String) : Bool := (pySplit s '/').contains ".."

/-! ## Concrete engines and environments for witnesses and counterexamples -/

/-- An engine bound without a token. -/
def gmMain : GitManager := (gitManagerInit "https://example.com/r.git" "/data/vault").1

/-- An engine bound with an access token. -/
def gmToken : GitManager :=
  (gitManagerInit "https://github.com/u/notes.git" "/data/vault" "main" (some "SECRET123")).1

/-- Same binding as `gmToken` except for the token value. -/
def gmTokenA : GitManager :=
  (gitManagerInit "https://github.com/u/notes.git" "/data/vault" "main" (some "tokenA")).1

/-- Same binding as `gmTokenA` except for the token value. -/
def gmTokenB : GitManager :=
  (gitManagerInit "https://github.com/u/notes.git" "/data/vault" "main" (some "tokenB")).1

/-- No local repository yet; every git call succeeds silently. -/
def envFresh : Env :=
  { pathExists := fun _ => false,
    git := fun _ _ => { returncode := 0, stdout := "", stderr := "" }, now := 5 }

/-- Existing repository, clean working tree; every git call succeeds with
empty output. -/
def envClean : Env :=
  { pathExists := fun _ => true,
    git := fun _ _ => { returncode := 0, stdout := "", stderr := "" }, now := 6 }

/-- Dirty tree, successful staging, commit and push, but the post-push
verification (invocation 8) still lists an unpushed commit. -/
def envVerifyStuck : Env :=
  { pathExists := fun _ => true,
    git := fun i _ =>
      if i = 0 then { returncode := 0, stdout := " M note.md\n", stderr := "" }
      else if i = 2 then { returncode := 0, stdout := " note.md | 1 +\n", stderr := "" }
      else if i = 3 then { returncode := 0, stdout := "[main abc1234] m", stderr := "" }
      else if i = 8 then { returncode := 0, stdout := "abc1234 m\n", stderr := "" }
      else { returncode := 0, stdout := "", stderr := "" },
    now := 11 }

/-- A stash is taken (the stash output lacks the nothing-to-stash marker), then
the rebase pull fails. -/
def envRebaseConflict : Env :=
  { pathExists := fun _ => true,
    git := fun i _ =>
      if i = 0 then
        { returncode := 0, stdout := "Saved working directory and index state\n", stderr := "" }
      else if i = 1 then
        { returncode := 1, stdout := "", stderr := "CONFLICT: could not apply abc1234\n" }
      else { returncode := 0, stdout := "", stderr := "" },
    now := 12 }

/-- Nothing to stash, then the rebase pull fails: drives `sync` into its
pull-failure short circuit. -/
def envSyncPullFail : Env :=
  { pathExists := fun _ => true,
    git := fun i _ =>
      if i = 0 then { returncode := 0, stdout := "No local changes to save\n", stderr := "" }
      else if i = 1 then
        { returncode := 1, stdout := "", stderr := "fatal: could not find remote ref main\n" }
      else { returncode := 0, stdout := "", stderr := "" },
    now := 13 }

/-- Dirty tree and a fully successful seven-step push (verification clean). -/
def envPushFull : Env :=
  { pathExists := fun _ => true,
    git := fun i _ =>
      if i = 0 then { returncode := 0, stdout := " M note.md\n", stderr := "" }
      else if i = 2 then { returncode := 0, stdout := " note.md | 1 +\n", stderr := "" }
      else if i = 3 then { returncode := 0, stdout := "[main abc1234] add note", stderr := "" }
      else if i = 5 then { returncode := 0, stdout := "abc1234 add note\n", stderr := "" }
      else { returncode := 0, stdout := "", stderr := "" },
    now := 14 }

/-- A local repository marker is present and every git call succeeds. -/
def envRepo : Env :=
  { pathExists := fun _ => true,
    git := fun _ _ => { returncode := 0, stdout := "", stderr := "" }, now := 15 }

/-! ## Lemmas: the validator's string pre-check, characterized per component -/

theorem splitOnChar_ne_nil (sep : Char) (l : List Char) : splitOnChar sep l ≠ [] := by
  induction l with
  | nil => simp [splitOnChar]
  | cons c cs ih =>
    simp only [splitOnChar]
    by_cases hc : c = sep
    · simp [hc]
    · simp only [hc, if_false]
      cases h : splitOnChar sep cs with
      | nil => simp
      | cons a as => simp

theorem headD_isPrefixOf (p l : List Char) (hp : ('/' : Char) ∉ p) :
    p.isPrefixOf ((splitOnChar '/' l).headD []) = p.isPrefixOf l := by
  induction l generalizing p with
  | nil => simp [splitOnChar]
  | cons c cs ih =>
    by_cases hc : c = '/'
    · subst hc
      simp only [splitOnChar, if_pos rfl, List.headD_cons]
      cases p with
      | nil => simp [List.isPrefixOf]
      | cons q qs =>
        have hq : q ≠ '/' := fun h => hp (h ▸ List.mem_cons_self q qs)
        have hq2 : ('/' : Char) ≠ q := fun h => hq h.symm
        simp [List.isPrefixOf, beq_iff_eq, hq]
    · obtain ⟨a, as, has⟩ := List.exists_cons_of_ne_nil (splitOnChar_ne_nil '/' cs)
      simp only [splitOnChar, hc, if_false, has, List.headD_cons]
      cases p with
      | nil => simp [List.isPrefixOf]
      | cons q qs =>
        have hqs : ('/' : Char) ∉ qs := fun h => hp (List.mem_cons_of_mem q h)
        have := ih qs hqs
        rw [has, List.headD_cons] at this
        simp [List.isPrefixOf, this]

theorem containsSub_slashdots (l : List Char) :
    containsSub ['/', '.', '.'] l
      = (splitOnChar '/' l).tail.any (fun c => ['.', '.'].isPrefixOf c) := by
  induction l with
  | nil => simp [containsSub, splitOnChar]
  | cons c cs ih =>
    have hdots : ('/' : Char) ∉ ['.', '.'] := by decide
    obtain ⟨a, as, has⟩ := List.exists_cons_of_ne_nil (splitOnChar_ne_nil '/' cs)
    by_cases hc : c = '/'
    · subst hc
      have hhead := headD_isPrefixOf ['.', '.'] cs hdots
      rw [has, List.headD_cons] at hhead
      simp [containsSub, splitOnChar, has, ih, List.isPrefixOf, hhead]
    · have hbeq : (('/' : Char) == c) = false := by
        simp only [beq_eq_false_iff_ne, ne_eq]
        exact fun h => hc h.symm
      simp [containsSub, splitOnChar, hc, has, ih, List.isPrefixOf, hbeq]

theorem containsSub_backslashdots (l : List Char) :
    containsSub ['\\', '.', '.'] l
      = (splitOnChar '/' l).any (fun c => containsSub ['\\', '.', '.'] c) := by
  induction l with
  | nil => simp [containsSub, splitOnChar]
  | cons c cs ih =>
    obtain ⟨a, as, has⟩ := List.exists_cons_of_ne_nil (splitOnChar_ne_nil '/' cs)
    by_cases hc : c = '/'
    · subst hc
      have hb : (('\\' : Char) == '/') = false := by decide
      simp [containsSub, splitOnChar, ih, List.isPrefixOf, hb]
    · have hpre : ['.', '.'].isPrefixOf a = ['.', '.'].isPrefixOf cs := by
        have := headD_isPrefixOf ['.', '.'] cs (by decide)
        rwa [has, List.headD_cons] at this
      simp only [containsSub, splitOnChar, hc, if_false, has, List.any_cons, ih,
        List.isPrefixOf, hpre]
      cases hb : (('\\' : Char) == c) <;>
        simp [Bool.or_comm, Bool.or_assoc, Bool.or_left_comm]

theorem list_any_or {α : Type} (l : List α) (f g : α → Bool) :
    (l.any fun x => f x || g x) = (l.any f || l.any g) := by
  induction l with
  | nil => rfl
  | cons a as ih => simp [List.any_cons, ih, Bool.or_assoc, Bool.or_left_comm]

/-- The source's three-part string pre-check is exactly: some component of the
path begins with `..` or contains a backslash followed by `..`. -/
theorem precheck_eq_componentFlag (s : String) :
    (strStartsWith s ".." || pyIn "/.." s || pyIn "\\.." s) = componentFlag s := by
  obtain ⟨a, as, has⟩ := List.exists_cons_of_ne_nil (splitOnChar_ne_nil '/' s.data)
  have hdd : ("..".data : List Char) = ['.', '.'] := rfl
  have hsd : ("/..".data : List Char) = ['/', '.', '.'] := rfl
  have hbd : ("\\..".data : List Char) = ['\\', '.', '.'] := rfl
  have hstart : strStartsWith s ".." = ['.', '.'].isPrefixOf a := by
    have := headD_isPrefixOf ['.', '.'] s.data (by decide)
    rw [has, List.headD_cons] at this
    rw [strStartsWith, hdd, this]
  have hslash : pyIn "/.." s = as.any (fun c => ['.', '.'].isPrefixOf c) := by
    rw [pyIn, hsd, containsSub_slashdots, has, List.tail_cons]
  have hback : pyIn "\\.." s
      = (a :: as).any (fun c => containsSub ['\\', '.', '.'] c) := by
    rw [pyIn, hbd, containsSub_backslashdots, has]
  have hmap : ∀ (bs : List (List Char)) (f : String → Bool),
      (bs.map String.mk).any f = bs.any (fun c => f (String.mk c)) := by
    intro bs f
    induction bs with
    | nil => rfl
    | cons b t ih => simp [List.any_cons, ih]
  have hcf : componentFlag s
      = (a :: as).any (fun c => ['.', '.'].isPrefixOf c
          || containsSub ['\\', '.', '.'] c) := by
    simp only [componentFlag, pySplit, hmap, has]
    rfl
  rw [hstart, hslash, hback, hcf, list_any_or, List.any_cons]
  simp [List.any_cons, Bool.or_comm, Bool.or_assoc, Bool.or_left_comm]

/-- `validate_path`, characterized: reject iff some component of the
normalized input begins with `..` or contains `\..`, or the canonical
resolution of the join is not under the root; otherwise return that
resolution. -/
theorem validate_path_eq (resolve : String → String) (root rel : String) :
    validate_path resolve root rel =
      (if componentFlag (normpath rel) = true then Except.error (PathErr.traversal rel)
       else if relativeToOk (resolve (pathJoin root (normpath rel))) root = true then
         Except.ok (resolve (pathJoin root (normpath rel)))
       else Except.error (PathErr.escapes rel)) := by
  rw [validate_path, ← precheck_eq_componentFlag]

theorem if_empty_slash (x : String) :
    strStartsWith (if ("/" ++ x) = "" then "." else "/" ++ x) "/" = true := by
  have hd : ("/" ++ x).data = '/' :: x.data := rfl
  have hne : ¬("/" ++ x = "") := by
    intro h
    have h2 : ("/" ++ x).data = ("" : String).data := congrArg String.data h
    rw [hd] at h2
    exact List.noConfusion h2
  rw [if_neg hne]
  show ("/" : String).data.isPrefixOf ("/" ++ x).data = true
  rw [hd]
  simp [List.isPrefixOf]

theorem if_empty_doubleslash (x : String) :
    strStartsWith (if ("//" ++ x) = "" then "." else "//" ++ x) "/" = true := by
  have hd : ("//" ++ x).data = '/' :: '/' :: x.data := rfl
  have hne : ¬("//" ++ x = "") := by
    intro h
    have h2 : ("//" ++ x).data = ("" : String).data := congrArg String.data h
    rw [hd] at h2
    exact List.noConfusion h2
  rw [if_neg hne]
  show ("/" : String).data.isPrefixOf ("//" ++ x).data = true
  rw [hd]
  simp [List.isPrefixOf]

/-- `normpath` of an absolute path is absolute. -/
theorem normpath_absolute (p : String) (h : strStartsWith p "/" = true) :
    strStartsWith (normpath p) "/" = true := by
  have hne : ¬ (p = "") := by
    intro he
    rw [he] at h
    exact absurd h (by decide)
  unfold normpath
  simp only [hne, if_false, h, if_true]
  by_cases h2 : (strStartsWith p "//" && !strStartsWith p "///") = true
  · simp [h2]
    exact if_empty_doubleslash _
  · have h2f : (strStartsWith p "//" && !strStartsWith p "///") = false := by
      cases hb : (strStartsWith p "//" && !strStartsWith p "///")
      · rfl
      · exact absurd hb h2
    simp [h2f]
    exact if_empty_slash _

/-! ## Lemmas: the engine's last-sync timestamp -/

/-- Either `clone`/`pull` leaves the timestamp alone, or it returned a
non-`no_changes` success. -/
theorem clonePull_last_sync (fuel : Nat) (isClone : Bool) (env : Env) (gm : GitManager)
    (n : Nat) :
    (clonePull fuel isClone env gm n).gm.last_sync = gm.last_sync
    ∨ ((clonePull fuel isClone env gm n).ret.success = true
       ∧ (clonePull fuel isClone env gm n).ret.action ≠ "no_changes") := by
  induction fuel generalizing isClone with
  | zero => exact Or.inl rfl
  | succ k ih =>
    cases isClone with
    | true =>
      unfold clonePull
      dsimp only
      split
      · exact ih false
      · split
        · exact Or.inl rfl
        · exact Or.inr ⟨rfl, by simp⟩
    | false =>
      unfold clonePull
      dsimp only
      split
      · exact ih true
      · split
        · exact Or.inl rfl
        · exact Or.inr ⟨rfl, by simp⟩

/-- Either `push` leaves the timestamp alone, or it returned a
non-`no_changes` success. -/
theorem pushOp_last_sync (env : Env) (gm : GitManager) (message : String) (n : Nat) :
    (pushOp env gm message n).gm.last_sync = gm.last_sync
    ∨ ((pushOp env gm message n).ret.success = true
       ∧ (pushOp env gm message n).ret.action ≠ "no_changes") := by
  by_cases h0 : pyStrip (env.git n ["git", "status", "--porcelain"]).stdout = ""
  · unfold pushOp runGit
    simp [Trace.start, addLog, h0]
  · by_cases h1 : (env.git (n + 1) ["git", "add", "-A"]).returncode = 0
    · by_cases h2 : pyStrip (env.git (n + 2) ["git", "diff", "--cached", "--stat"]).stdout = ""
      · unfold pushOp runGit
        simp [Trace.start, addLog, h0, h1, h2]
      · by_cases h3 : (env.git (n + 3) ["git", "commit", "-m", message]).returncode = 0
        · by_cases h6 : (env.git (n + 6) ["git", "push", "origin", gm.branch]).returncode = 0
          · by_cases h8 : pyStrip (env.git (n + 8)
                ["git", "log", "origin/" ++ gm.branch ++ "..HEAD", "--oneline"]).stdout = ""
            · unfold pushOp runGit
              simp [Trace.start, addLog, h0, h1, h2, h3, h6, h8]
            · unfold pushOp runGit
              simp [Trace.start, addLog, h0, h1, h2, h3, h6, h8]
          · unfold pushOp runGit
            simp [Trace.start, addLog, h0, h1, h2, h3, h6]
        · unfold pushOp runGit
          simp [Trace.start, addLog, h0, h1, h2, h3]
    · unfold pushOp runGit
      simp [Trace.start, addLog, h0, h1]

/-- `get_status` returns the engine state untouched. -/
theorem getStatus_frame (env : Env) (gm : GitManager) (n : Nat) :
    (getStatus env gm n).gm = gm := by
  unfold getStatus runGit
  dsimp only
  simp only [apply_ite OpRun.gm]
  split <;> simp

/-! ## The claims -/

/-- C1 (amended): `validate_path` raises `PathSecurityError` exactly when some
component of the lexically normalized input begins with the two characters
`..` (a wider test than "is a parent-directory segment") or contains a
backslash followed by `..`, or when the canonical resolution of the root
joined with the input is not the root or a descendant of it; otherwise it
returns exactly that canonical resolution, which is the root or a descendant
(its parts extend the root's parts).  The embedding is a pure function of the
input and the resolution function, so no filesystem mutation occurs. -/
theorem validate_path_containment (resolve : String → String) (root rel : String) :
    validate_path resolve root rel =
      (if componentFlag (normpath rel) = true then
        Except.error (PathErr.traversal rel)
      else if (pathParts root).isPrefixOf
          (pathParts (resolve (pathJoin root (normpath rel)))) = true then
        Except.ok (resolve (pathJoin root (normpath rel)))
      else
        Except.error (PathErr.escapes rel)) :=
  validate_path_eq resolve root rel

/-- C1 counterexample: the relative path `..a` contains no parent-directory
segment after normalization, and on a symlink-free filesystem (identity
resolution: the joined path is already canonical) it resolves to a direct
child of the vault root, yet `validate_path` raises `PathSecurityError`
instead of returning that path — refuting "for every path that resolves
within the root, validate_path returns a canonical absolute path". -/
theorem validate_path_inside_rejected_cex :
    hasParentSegment (normpath "..a") = false
    ∧ relativeToOk (id (pathJoin "/vault" (normpath "..a"))) "/vault" = true
    ∧ validate_path id "/vault" "..a" = Except.error (PathErr.traversal "..a") :=
  ⟨by decide, by decide, rfl⟩

/-- C2 (code bug evaluated): cloning with a token-bearing remote URL logs the
joined argument vector, so the token appears in the log output; the sanitized
URL kept for display does not contain it, and two engines identical except for
the token produce different logs. -/
theorem clone_log_leaks_token :
    (cloneOp envFresh gmToken 0).log.any (fun s => pyIn "SECRET123" s) = true
    ∧ pyIn "SECRET123" gmToken.repo_url_safe = false
    ∧ (cloneOp envFresh gmTokenA 0).log ≠ (cloneOp envFresh gmTokenB 0).log :=
  ⟨by decide, by decide, by decide⟩

/-- C3: when the working tree is dirty, staging succeeds, the staged diff is
nonempty, and the commit and push commands both succeed, but the post-push
verification still lists unpushed commits, `push` returns `success := false`
with `step := "verify"` (never `success := true`), leaving the timestamp
untouched. -/
theorem push_verify_failure (env : Env) (gm : GitManager) (message : String) (n : Nat)
    (h0 : pyStrip (env.git n ["git", "status", "--porcelain"]).stdout ≠ "")
    (h1 : (env.git (n + 1) ["git", "add", "-A"]).returncode = 0)
    (h2 : pyStrip (env.git (n + 2) ["git", "diff", "--cached", "--stat"]).stdout ≠ "")
    (h3 : (env.git (n + 3) ["git", "commit", "-m", message]).returncode = 0)
    (h6 : (env.git (n + 6) ["git", "push", "origin", gm.branch]).returncode = 0)
    (h8 : pyStrip (env.git (n + 8)
        ["git", "log", "origin/" ++ gm.branch ++ "..HEAD", "--oneline"]).stdout ≠ "") :
    (pushOp env gm message n).ret =
      { success := false, action := "push",
        error := some "Push command succeeded but commits still not on remote",
        step := some "verify" }
    ∧ (pushOp env gm message n).gm = gm := by
  unfold pushOp runGit
  simp [Trace.start, addLog, h0, h1, h2, h3, h6, h8]

/-- Witness for C3 at a concrete environment. -/
theorem push_verify_failure_witness :
    (pyStrip (envVerifyStuck.git 0 ["git", "status", "--porcelain"]).stdout ≠ ""
      ∧ pyStrip (envVerifyStuck.git 8
          ["git", "log", "origin/main..HEAD", "--oneline"]).stdout ≠ "")
    ∧ ((pushOp envVerifyStuck gmMain "m" 0).ret =
        { success := false, action := "push",
          error := some "Push command succeeded but commits still not on remote",
          step := some "verify" }
      ∧ (pushOp envVerifyStuck gmMain "m" 0).gm = gmMain) :=
  ⟨⟨by decide, by decide⟩,
    push_verify_failure envVerifyStuck gmMain "m" 0 (by decide) (by decide) (by decide)
      (by decide) (by decide) (by decide)⟩

/-- C4: when the stash step recorded that something was stashed (its output
lacks the nothing-to-stash marker) and the rebase pull fails, `pull` issues
the stash-restore command before returning the failure outcome, and leaves
the engine state untouched. -/
theorem pull_failure_restores_stash (env : Env) (gm : GitManager) (n : Nat)
    (hex : env.pathExists gm.local_path = true)
    (hstash : pyIn "No local changes to save"
        (env.git n ["git", "stash", "push", "-m", "auto-stash before pull"]).stdout = false)
    (hfail : (env.git (n + 1) ["git", "pull", "--rebase", "origin", gm.branch]).returncode ≠ 0) :
    (pullOp env gm n).cmds =
      [["git", "stash", "push", "-m", "auto-stash before pull"],
       ["git", "pull", "--rebase", "origin", gm.branch],
       ["git", "stash", "pop"]]
    ∧ (pullOp env gm n).ret =
        { success := false, action := "pull",
          error := some (env.git (n + 1)
            ["git", "pull", "--rebase", "origin", gm.branch]).stderr }
    ∧ (pullOp env gm n).gm = gm := by
  unfold pullOp clonePull runGit
  simp [Trace.start, addLog, hex, hstash, hfail]

/-- Witness for C4 at a concrete environment. -/
theorem pull_failure_restores_stash_witness :
    (envRebaseConflict.pathExists gmMain.local_path = true
      ∧ pyIn "No local changes to save"
          (envRebaseConflict.git 0
            ["git", "stash", "push", "-m", "auto-stash before pull"]).stdout = false
      ∧ (envRebaseConflict.git 1
          ["git", "pull", "--rebase", "origin", gmMain.branch]).returncode ≠ 0)
    ∧ (pullOp envRebaseConflict gmMain 0).cmds =
        [["git", "stash", "push", "-m", "auto-stash before pull"],
         ["git", "pull", "--rebase", "origin", gmMain.branch],
         ["git", "stash", "pop"]] :=
  ⟨⟨by decide, by decide, by decide⟩,
    (pull_failure_restores_stash envRebaseConflict gmMain 0 (by decide) (by decide)
      (by decide)).1⟩

/-- C5: `sync` composes pull then push; if pull fails, push is never invoked
(the command trace of `sync` is exactly pull's), the outcome is a failure
tagged `step := "pull"` carrying the pull result; if pull succeeds and push
fails, the outcome is a failure tagged `step := "push"` carrying the push
result. -/
theorem sync_failure_steps (env : Env) (gm : GitManager) (message : String) (n : Nat)
    (h : (pullOp env gm n).ret.success = false
       ∨ ((pullOp env gm n).ret.success = true
          ∧ (pushOp env (pullOp env gm n).gm message
              (n + (pullOp env gm n).cmds.length)).ret.success = false)) :
    (syncOp env gm message n).ret.success = false
    ∧ (if (pullOp env gm n).ret.success = false then
        (syncOp env gm message n).ret.step = some "pull"
        ∧ (syncOp env gm message n).ret.pull_result = some (pullOp env gm n).ret
        ∧ (syncOp env gm message n).ret.error
            = some ("Pull failed: " ++ pyShowOpt (pullOp env gm n).ret.error)
        ∧ (syncOp env gm message n).cmds = (pullOp env gm n).cmds
      else
        (syncOp env gm message n).ret.step = some "push"
        ∧ (syncOp env gm message n).ret.push_result
            = some (pushOp env (pullOp env gm n).gm message
                (n + (pullOp env gm n).cmds.length)).ret
        ∧ (syncOp env gm message n).ret.error
            = some ("Push failed: " ++ pyShowOpt (pushOp env (pullOp env gm n).gm message
                (n + (pullOp env gm n).cmds.length)).ret.error)
        ∧ (syncOp env gm message n).cmds
            = (pullOp env gm n).cmds ++ (pushOp env (pullOp env gm n).gm message
                (n + (pullOp env gm n).cmds.length)).cmds) := by
  rcases h with h | ⟨h1, h2⟩
  · unfold syncOp
    simp [h]
  · unfold syncOp
    simp [h1, h2]

/-- Witness for C5 at a concrete environment whose pull fails. -/
theorem sync_failure_steps_witness :
    (pullOp envSyncPullFail gmMain 0).ret.success = false
    ∧ (syncOp envSyncPullFail gmMain "m" 0).ret.success = false :=
  ⟨by decide, (sync_failure_steps envSyncPullFail gmMain "m" 0 (Or.inl (by decide))).1⟩

/-- C6: on a clean working tree, and likewise when the staged diff is empty
after staging, `push` returns `success := true, action := "no_changes",
changes_pushed := false`, never issues a commit command, and leaves the engine
state untouched. -/
theorem push_no_changes (env : Env) (gm : GitManager) (message : String) (n : Nat)
    (h : pyStrip (env.git n ["git", "status", "--porcelain"]).stdout = ""
       ∨ (pyStrip (env.git n ["git", "status", "--porcelain"]).stdout ≠ ""
          ∧ (env.git (n + 1) ["git", "add", "-A"]).returncode = 0
          ∧ pyStrip (env.git (n + 2) ["git", "diff", "--cached", "--stat"]).stdout = "")) :
    (pushOp env gm message n).ret =
      { success := true, action := "no_changes",
        message := some (if pyStrip (env.git n ["git", "status", "--porcelain"]).stdout = ""
          then "Working directory clean, nothing to push"
          else "Nothing staged - files may be in .gitignore"),
        changes_pushed := some false }
    ∧ (∀ c ∈ (pushOp env gm message n).cmds, "commit" ∉ c)
    ∧ (pushOp env gm message n).gm = gm := by
  rcases h with h | ⟨ha, hb, hc⟩
  · have hcmds : (pushOp env gm message n).cmds = [["git", "status", "--porcelain"]] := by
      unfold pushOp runGit
      simp [Trace.start, addLog, h]
    refine ⟨?_, ?_, ?_⟩
    · unfold pushOp runGit
      simp [Trace.start, addLog, h]
    · rw [hcmds]; decide
    · unfold pushOp runGit
      simp [Trace.start, addLog, h]
  · have hcmds : (pushOp env gm message n).cmds =
        [["git", "status", "--porcelain"], ["git", "add", "-A"],
         ["git", "diff", "--cached", "--stat"],
         ["git", "status", "--ignored", "--porcelain"]] := by
      unfold pushOp runGit
      simp [Trace.start, addLog, ha, hb, hc]
    refine ⟨?_, ?_, ?_⟩
    · unfold pushOp runGit
      simp [Trace.start, addLog, ha, hb, hc]
    · rw [hcmds]; decide
    · unfold pushOp runGit
      simp [Trace.start, addLog, ha, hb, hc]

/-- Witness for C6 on a clean working tree. -/
theorem push_no_changes_witness :
    pyStrip (envClean.git 0 ["git", "status", "--porcelain"]).stdout = ""
    ∧ (pushOp envClean gmMain "m" 0).ret =
        { success := true, action := "no_changes",
          message := some (if pyStrip (envClean.git 0
              ["git", "status", "--porcelain"]).stdout = ""
            then "Working directory clean, nothing to push"
            else "Nothing staged - files may be in .gitignore"),
          changes_pushed := some false } :=
  ⟨by decide, (push_no_changes envClean gmMain "m" 0 (Or.inl (by decide))).1⟩

/-- C7 (code bug evaluated): a fully successful `push` run issues a commit
command but never any `config` command, and the engine state carries no
identity-configured flag at all (`GitManager.__init__` creates only the remote
binding and the timestamp), contradicting the claimed configure-identity-once
step before the first commit. -/
theorem push_commits_without_identity_config :
    (pushOp envPushFull gmMain "add note" 0).ret.success = true
    ∧ (pushOp envPushFull gmMain "add note" 0).cmds.any (fun c => c.contains "commit") = true
    ∧ (pushOp envPushFull gmMain "add note" 0).cmds.any (fun c => c.contains "config") = false :=
  ⟨by decide, by decide, by decide⟩

/-- C8: when the local root holds an initialized repository marker, `clone`
returns exactly `pull`'s result (same outcome, same final state, same command
trace); when the local root does not exist, `pull` returns exactly `clone`'s
result. -/
theorem clone_pull_delegation (env : Env) (gm : GitManager) (n : Nat)
    (h : (env.pathExists gm.local_path && env.pathExists (gm.local_path ++ "/.git")) = true
       ∨ env.pathExists gm.local_path = false) :
    (cloneOp env gm n).ret = (pullOp env gm n).ret
    ∧ (cloneOp env gm n).gm = (pullOp env gm n).gm
    ∧ (cloneOp env gm n).cmds = (pullOp env gm n).cmds := by
  rcases h with h | h
  · rw [Bool.and_eq_true] at h
    unfold cloneOp pullOp
    simp [clonePull, h.1, h.2, addLog]
  · have h2 : (env.pathExists gm.local_path
        && env.pathExists (gm.local_path ++ "/.git")) = false := by
      rw [h]; rfl
    unfold cloneOp pullOp
    simp [clonePull, h, h2, addLog]

/-- Witness for C8 where the repository marker exists. -/
theorem clone_pull_delegation_witness :
    ((envRepo.pathExists gmMain.local_path
        && envRepo.pathExists (gmMain.local_path ++ "/.git")) = true
      ∨ envRepo.pathExists gmMain.local_path = false)
    ∧ (cloneOp envRepo gmMain 0).ret = (pullOp envRepo gmMain 0).ret :=
  ⟨Or.inl (by decide), (clone_pull_delegation envRepo gmMain 0 (Or.inl (by decide))).1⟩

/-- C9: the last-successful-sync timestamp changes only when `clone`, `pull`
or `push` returns an overall success that is not a `no_changes` outcome, and
`get_status` never mutates the engine state. -/
theorem sync_state_frame (env : Env) (gm : GitManager) (message : String) (n : Nat) :
    ((cloneOp env gm n).gm.last_sync = gm.last_sync
      ∨ ((cloneOp env gm n).ret.success = true
         ∧ (cloneOp env gm n).ret.action ≠ "no_changes"))
    ∧ ((pullOp env gm n).gm.last_sync = gm.last_sync
      ∨ ((pullOp env gm n).ret.success = true
         ∧ (pullOp env gm n).ret.action ≠ "no_changes"))
    ∧ ((pushOp env gm message n).gm.last_sync = gm.last_sync
      ∨ ((pushOp env gm message n).ret.success = true
         ∧ (pushOp env gm message n).ret.action ≠ "no_changes"))
    ∧ (getStatus env gm n).gm = gm :=
  ⟨clonePull_last_sync 2 true env gm n, clonePull_last_sync 2 false env gm n,
    pushOp_last_sync env gm message n, getStatus_frame env gm n⟩

/-- C10 (amended): an absolute input path none of whose normalized components
begins with `..` or contains a backslash-dot-dot sequence is not rejected by
the lexical pre-check; joining it onto the vault root yields the path itself,
so it is accepted exactly when its canonical resolution is the root or a
descendant, and otherwise rejected by the canonical post-check alone. -/
theorem validate_path_absolute_inputs (resolve : String → String) (root rel : String)
    (habs : strStartsWith rel "/" = true)
    (hcomp : componentFlag (normpath rel) = false) :
    pathJoin root (normpath rel) = normpath rel
    ∧ validate_path resolve root rel =
        (if relativeToOk (resolve (normpath rel)) root = true then
          Except.ok (resolve (normpath rel))
        else Except.error (PathErr.escapes rel)) := by
  have habs2 := normpath_absolute rel habs
  have hjoin : pathJoin root (normpath rel) = normpath rel := by
    unfold pathJoin
    simp [habs2]
  refine ⟨hjoin, ?_⟩
  rw [validate_path_eq, hcomp, hjoin]
  simp

/-- Witness for C10: an in-root absolute path is accepted via the post-check. -/
theorem validate_path_absolute_inputs_witness :
    (strStartsWith "/vault/notes/a.md" "/" = true
      ∧ componentFlag (normpath "/vault/notes/a.md") = false)
    ∧ (pathJoin "/vault" (normpath "/vault/notes/a.md") = normpath "/vault/notes/a.md"
      ∧ validate_path id "/vault" "/vault/notes/a.md" =
          (if relativeToOk (id (normpath "/vault/notes/a.md")) "/vault" = true then
            Except.ok (id (normpath "/vault/notes/a.md"))
          else Except.error (PathErr.escapes "/vault/notes/a.md"))) :=
  ⟨⟨by decide, by decide⟩,
    validate_path_absolute_inputs id "/vault" "/vault/notes/a.md" (by decide) (by decide)⟩

/-- C10 counterexample: the absolute input `/vault/..cfg` canonically resolves
(identity resolution: it is already canonical) to a child of the vault root,
yet the lexical pre-check rejects it, refuting "for every absolute input path
the lexical parent-directory pre-check does not reject it". -/
theorem validate_path_absolute_cex :
    strStartsWith "/vault/..cfg" "/" = true
    ∧ relativeToOk (id (pathJoin "/vault" (normpath "/vault/..cfg"))) "/vault" = true
    ∧ validate_path id "/vault" "/vault/..cfg" =
        Except.error (PathErr.traversal "/vault/..cfg") :=
  ⟨by decide, by decide, rfl⟩

end MCPVault
